import Mathlib

/-!
Verification of the update-ingestion and persistence pipeline of userteg
(src/userteg.py): the SQLite-backed storage operations, the message
normalizer, and the long-poll monitoring loop, shallowly embedded as pure
functions over an explicit database state.
-/

set_option linter.unusedVariables false

/-! ## Data model: the five tables created by DatabaseManager._init_database -/

/-- A row of the users table (src/userteg.py lines 163-174 and 475-486). -/
structure UserRow where
  user_id : Int
  first_name : Option String
  last_name : Option String
  current_username : Option String
  is_bot : Bool
  language_code : Option String
  first_seen : String
  last_seen : String
  deriving DecidableEq, Repr

/-- A row of the username_history table (lines 177-185 and 489-497); the
AUTOINCREMENT id column is modelled by the position in the list. -/
structure HistRow where
  user_id : Int
  username : Option String
  changed_at : String
  deriving DecidableEq, Repr

/-- A row of the messages table (lines 188-202 and 500-514); its primary key
is the pair (message_id, chat_id). -/
structure MsgRow where
  message_id : Int
  chat_id : Int
  user_id : Int
  username : Option String
  first_name : Option String
  message_text : String
  message_date : String
  media_type : Option String
  forwarded_from : Option Int
  reply_to_message_id : Option Int
  deriving DecidableEq, Repr

/-- A row of the chats table (lines 205-216 and 517-528). -/
structure ChatRow where
  chat_id : Int
  chat_type : Option String
  title : Option String
  username : Option String
  description : Option String
  member_count : Option Int
  first_seen : String
  last_updated : String
  deriving DecidableEq, Repr

/-- A row of the user_activity table (lines 219-230 and 531-542). -/
structure ActivityRow where
  user_id : Int
  chat_id : Int
  chat_title : Option String
  status : Option String
  first_seen : String
  last_seen : String
  message_count : Int
  deriving DecidableEq, Repr

/-- The whole database state: one list of rows per table. -/
structure DB where
  users : List UserRow
  username_history : List HistRow
  messages : List MsgRow
  chats : List ChatRow
  user_activity : List ActivityRow
  deriving DecidableEq, Repr

/-- The freshly initialized database: _init_database only issues
CREATE TABLE IF NOT EXISTS statements, so on a new path all tables are empty. -/
def emptyDB : DB :=
  { users := [], username_history := [], messages := [], chats := [], user_activity := [] }

/-! ## Raw Telegram update records, as the dictionaries the API returns.
Every field read with dict.get is an Option; presence-tested media keys are
modelled as Booleans because only their presence is inspected. -/

/-- The nested chat object of a message (message.get, line 425). -/
structure RawChat where
  id : Option Int := none
  title : Option String := none
  deriving Repr

/-- The nested sender object of a message (message.get, line 427) and of
forward_from (line 456). -/
structure RawUser where
  id : Option Int := none
  first_name : Option String := none
  last_name : Option String := none
  username : Option String := none
  is_bot : Option Bool := none
  language_code : Option String := none
  deriving Repr

/-- The nested reply_to_message object (line 457); only message_id is read. -/
structure RawReply where
  message_id : Option Int := none
  deriving Repr

/-- A raw message dictionary as read by process_message (lines 423-458). -/
structure RawMessage where
  message_id : Option Int := none
  chat : Option RawChat := none
  from_user : Option RawUser := none
  text : Option String := none
  date : Option Int := none
  photo : Bool := false
  video : Bool := false
  document : Bool := false
  forward_from : Option RawUser := none
  reply_to_message : Option RawReply := none
  deriving Repr

/-- A raw update from getUpdates (lines 668-672): an update_id plus an
optional message key. -/
structure RawUpdate where
  update_id : Int
  message : Option RawMessage := none
  deriving Repr

/-- Python truthiness of an optional integer, as used by the
all([message.get(..), chat_id, user_id]) guard at line 430: None and 0 are
falsy, every other integer is truthy. -/
def intTruthy : Option Int → Bool
  | none => false
  | some n => n != 0

/-- Stands for datetime.fromtimestamp(t).isoformat() at line 436: the source
stores an ISO-8601 local-time rendering of the Unix timestamp. The exact text
is irrelevant to every claim below; this executable stand-in is injective in
the timestamp. -/
def isoOfTimestamp (t : Int) : String :=
  "isoformat:" ++ toString t

/-! ## Storage operations (the effective DatabaseManager, lines 462-631) -/

/-- DatabaseManager.store_message_data (lines 547-563): INSERT OR REPLACE on
the messages table keyed by (message_id, chat_id) - any existing row with the
same composite key is removed and the new row is inserted. -/
def store_message_data (db : DB) (row : MsgRow) : DB :=
  let kept := db.messages.filter
    (fun r => !(r.message_id == row.message_id && r.chat_id == row.chat_id))
  { db with messages := kept ++ [row] }

/-- Modelled from the spec: process_message (line 433) calls
self.db_manager.store_user_data, but no DatabaseManager definition in
src/userteg.py contains a store_user_data method - the operation is missing
from the source. Following spec section 4.1 (upsertUser): insert a new users
row when user_id is unseen; otherwise update last_name, is_bot, language_code
and last_seen; when the observed username differs from the stored
current_username, first append a username_history entry recording the newly
observed username (spec sections 3 and 8: entries bob at T2 and alice at T3
for the sequence alice, bob, alice), then update current_username. -/
def store_user_data (db : DB) (u : RawUser) (now : String) : DB :=
  let uid := u.id.getD 0
  match db.users.find? (fun r => r.user_id == uid) with
  | none =>
      let newRow : UserRow :=
        { user_id := uid,
          first_name := u.first_name,
          last_name := u.last_name,
          current_username := u.username,
          is_bot := u.is_bot.getD false,
          language_code := u.language_code,
          first_seen := now,
          last_seen := now }
      { db with users := db.users ++ [newRow] }
  | some r =>
      let entry : HistRow := { user_id := uid, username := u.username, changed_at := now }
      let db1 :=
        if u.username = r.current_username then db
        else { db with username_history := db.username_history ++ [entry] }
      let upd : UserRow → UserRow := fun s =>
        if s.user_id == uid then
          { s with
              last_name := u.last_name,
              is_bot := u.is_bot.getD false,
              language_code := u.language_code,
              current_username := u.username,
              last_seen := now }
        else s
      { db1 with users := db1.users.map upd }

/-! ## The normalizer: UserTegOSINT.process_message (lines 423-458) -/

/-- UserTegOSINT.process_message: reads chat.id and from.id through defaulted
dictionary lookups, skips unless message_id, chat_id and user_id are all
truthy, then stores the user and the normalized message row. The now argument
stands for datetime.now().isoformat() used by the modelled store_user_data. -/
def process_message (db : DB) (now : String) (message : RawMessage) : DB :=
  let chat := message.chat.getD {}
  let chat_id := chat.id
  let user := message.from_user.getD {}
  let user_id := user.id
  if !(intTruthy message.message_id && intTruthy chat_id && intTruthy user_id) then
    db
  else
    let db1 := store_user_data db user now
    let message_text := message.text.getD ""
    let message_date := isoOfTimestamp (message.date.getD 0)
    let media_type : Option String :=
      if message.photo then some "photo"
      else if message.video then some "video"
      else if message.document then some "document"
      else none
    store_message_data db1
      { message_id := message.message_id.getD 0
        chat_id := chat_id.getD 0
        user_id := user_id.getD 0
        username := user.username
        first_name := user.first_name
        message_text := message_text
        message_date := message_date
        media_type := media_type
        forwarded_from := (message.forward_from.getD {}).id
        reply_to_message_id := (message.reply_to_message.getD {}).message_id }

/-- The dispatch step of start_monitoring (lines 671-672): a raw update is
processed only when it carries a message key. -/
def process_update (db : DB) (now : String) (u : RawUpdate) : DB :=
  match u.message with
  | some m => process_message db now m
  | none => db

/-! ## Claim C1: idempotent message upsert -/

theorem filter_of_filter_not {α : Type} (p : α → Bool) (l : List α) :
    (l.filter (fun a => !(p a))).filter p = [] := by
  rw [List.filter_filter]
  simp

/-- C1: storing a message record twice (a second write with the same
(message_id, chat_id) key, in particular the very same record) leaves exactly
one stored row for that key, holding the second write's field values. -/
theorem C1_message_upsert (db : DB) (r1 r2 : MsgRow)
    (hm : r1.message_id = r2.message_id) (hc : r1.chat_id = r2.chat_id) :
    (store_message_data (store_message_data db r1) r2).messages.filter
        (fun r => r.message_id == r2.message_id && r.chat_id == r2.chat_id) = [r2] := by
  simp only [store_message_data, List.filter_append, hm, hc]
  rw [List.filter_filter]
  simp

/-- A concrete first write for the C1 witness, keyed (1, 100). -/
def msgRowA : MsgRow :=
  { message_id := 1,
    chat_id := 100,
    user_id := 5,
    username := some "a",
    first_name := none,
    message_text := "first",
    message_date := "D1",
    media_type := none,
    forwarded_from := none,
    reply_to_message_id := none }

/-- A concrete second write for the C1 witness, same key (1, 100). -/
def msgRowB : MsgRow :=
  { msgRowA with user_id := 6, username := some "b", message_text := "second",
                 message_date := "D2" }

/-- Witness for C1 at a concrete database and concrete message records
sharing the key (1, 100). -/
theorem C1_message_upsert_witness :
    (msgRowA.message_id = msgRowB.message_id ∧ msgRowA.chat_id = msgRowB.chat_id) ∧
    (store_message_data (store_message_data emptyDB msgRowA) msgRowB).messages.filter
        (fun r => r.message_id == msgRowB.message_id && r.chat_id == msgRowB.chat_id)
      = [msgRowB] :=
  ⟨⟨rfl, rfl⟩, C1_message_upsert emptyDB msgRowA msgRowB rfl rfl⟩

/-! ## Claim C3: the non-optional-triad guard writes nothing -/

/-- C3: an update with no message key, or whose message lacks the message
identifier, the chat identifier or the sender identifier, is dispatched
without writing to any table: the whole database state is unchanged. -/
theorem C3_skip_guard (db : DB) (now : String) (u : RawUpdate)
    (h : u.message = none ∨ ∃ m, u.message = some m ∧
        (m.message_id = none ∨ (m.chat.getD {}).id = none ∨
          (m.from_user.getD {}).id = none)) :
    process_update db now u = db := by
  rcases h with hnone | ⟨m, hm, hfield⟩
  · simp [process_update, hnone]
  · rcases hfield with h1 | h1 | h1 <;>
      simp [process_update, hm, process_message, h1, intTruthy]

/-- Witness for C3: an update that carries no message leaves the empty
database unchanged. -/
theorem C3_skip_guard_witness :
    process_update emptyDB "T" { update_id := 9, message := none } = emptyDB :=
  C3_skip_guard emptyDB "T" { update_id := 9, message := none } (Or.inl rfl)

/-! ## Claim C10: a zero-valued identifier is treated as missing -/

/-- C10: because the guard at line 430 uses Python truthiness via all,
a message whose message_id, chat id or sender id equals 0 is silently
skipped: no table is written even though 0 is a present, well-typed value. -/
theorem C10_zero_id_skipped (db : DB) (now : String) (m : RawMessage)
    (h : m.message_id = some 0 ∨ (m.chat.getD {}).id = some 0 ∨
        (m.from_user.getD {}).id = some 0) :
    process_message db now m = db := by
  rcases h with h1 | h1 | h1 <;> simp [process_message, h1, intTruthy]

/-- Witness for C10: a message with sender id 0 (chat 100, message_id 1)
leaves the empty database unchanged. -/
theorem C10_zero_id_skipped_witness :
    process_message emptyDB "T"
      { message_id := some 1, chat := some { id := some 100 },
        from_user := some { id := some 0 }, text := some "hi",
        date := some 0 } = emptyDB :=
  C10_zero_id_skipped emptyDB "T" _ (Or.inr (Or.inr rfl))

/-! ## Claim C7: media classification is first-match-wins -/

/-- The guard of process_message as a Boolean: all three identifiers truthy. -/
def guardPass (m : RawMessage) : Bool :=
  intTruthy m.message_id && intTruthy ((m.chat.getD {}).id)
    && intTruthy ((m.from_user.getD {}).id)

/-- The media_type stored for a guard-passing message is the value of the
ordered photo, video, document checks of lines 438-444. -/
theorem stored_media_type (db : DB) (now : String) (m : RawMessage)
    (h : guardPass m = true) :
    ((process_message db now m).messages.getLast?).map (fun r => r.media_type)
      = some (if m.photo then some "photo"
              else if m.video then some "video"
              else if m.document then some "document"
              else none) := by
  have hg : (intTruthy m.message_id && intTruthy ((m.chat.getD {}).id)
      && intTruthy ((m.from_user.getD {}).id)) = true := h
  simp only [process_message, hg, Bool.not_true, Bool.false_eq_true, if_false,
    store_message_data, List.getLast?_concat]
  rfl

/-- C7: for every message that passes the guard, the stored media_type is
decided first-match-wins over the ordered checks photo, video, document
(lines 438-444), and is none when all three are absent; in particular a
message carrying both a photo and a document classifies as photo. The stored
row is the one store_message_data appended last to the messages table. -/
theorem C7_media_precedence (db : DB) (now : String) (m : RawMessage)
    (h : guardPass m = true) :
    ((m.photo = true →
        ((process_message db now m).messages.getLast?).map (fun r => r.media_type)
          = some (some "photo")) ∧
      (m.photo = false ∧ m.video = true →
        ((process_message db now m).messages.getLast?).map (fun r => r.media_type)
          = some (some "video")) ∧
      (m.photo = false ∧ m.video = false ∧ m.document = true →
        ((process_message db now m).messages.getLast?).map (fun r => r.media_type)
          = some (some "document")) ∧
      (m.photo = false ∧ m.video = false ∧ m.document = false →
        ((process_message db now m).messages.getLast?).map (fun r => r.media_type)
          = some none)) ∧
    (m.photo = true ∧ m.document = true →
      ((process_message db now m).messages.getLast?).map (fun r => r.media_type)
        = some (some "photo")) := by
  have hs := stored_media_type db now m h
  refine ⟨⟨?_, ?_, ?_, ?_⟩, ?_⟩ <;> intro hmedia <;> rw [hs] <;>
    simp_all

/-- A concrete guard-passing message asserting both a photo and a document. -/
def photoDocMessage : RawMessage :=
  { message_id := some 1,
    chat := some { id := some 100 },
    from_user := some { id := some 7 },
    text := some "pic",
    date := some 0,
    photo := true,
    document := true }

/-- Witness for C7: the concrete photo-and-document message is stored with
media_type photo. -/
theorem C7_media_precedence_witness :
    guardPass photoDocMessage = true ∧
    ((process_message emptyDB "T" photoDocMessage).messages.getLast?).map
        (fun r => r.media_type) = some (some "photo") :=
  ⟨rfl, (C7_media_precedence emptyDB "T" photoDocMessage rfl).2 ⟨rfl, rfl⟩⟩

/-! ## Claim C2: username history through the ingestion pipeline -/

/-- A message from user 7 in chat 100 carrying the given username, as
observed by the pipeline. -/
def obsMessage (mid : Int) (uname : String) (txt : String) : RawMessage :=
  { message_id := some mid,
    chat := some { id := some 100 },
    from_user := some { id := some 7, first_name := some "A", username := some uname },
    text := some txt,
    date := some 0 }

/-- The database after the pipeline observes user 7 with usernames alice,
bob, alice at times T1, T2, T3. -/
def aliceBobAliceDB : DB :=
  process_message
    (process_message
      (process_message emptyDB "T1" (obsMessage 1 "alice" "m1"))
      "T2" (obsMessage 2 "bob" "m2"))
    "T3" (obsMessage 3 "alice" "m3")

/-- C2: after observing alice, bob, alice the history holds exactly the two
entries bob (second observation) and alice (third), and current_username ends
at alice; in general, store_user_data appends one history entry exactly when
the observed username differs from the stored current_username of an already
seen user, and appends nothing for an unseen user. -/
theorem C2_username_history :
    (aliceBobAliceDB.username_history =
        [{ user_id := 7, username := some "bob", changed_at := "T2" },
         { user_id := 7, username := some "alice", changed_at := "T3" }] ∧
      (aliceBobAliceDB.users.find? (fun r => r.user_id == 7)).map
          (fun r => r.current_username) = some (some "alice")) ∧
    ∀ (db : DB) (u : RawUser) (now : String),
      (store_user_data db u now).username_history =
        db.username_history ++
          (match db.users.find? (fun r => r.user_id == u.id.getD 0) with
            | none => []
            | some r =>
              if u.username = r.current_username then []
              else [{ user_id := u.id.getD 0, username := u.username, changed_at := now }]) := by
  refine ⟨⟨by decide, by decide⟩, ?_⟩
  intro db u now
  unfold store_user_data
  cases hf : db.users.find? (fun r => r.user_id == u.id.getD 0) with
  | none => simp [hf]
  | some r => by_cases hu : u.username = r.current_username <;> simp [hf, hu]

/-! ## Claim C8: activity aggregation -/

theorem store_user_data_user_activity (db : DB) (u : RawUser) (now : String) :
    (store_user_data db u now).user_activity = db.user_activity := by
  unfold store_user_data
  cases hf : db.users.find? (fun r => r.user_id == u.id.getD 0) with
  | none => simp [hf]
  | some r => by_cases hu : u.username = r.current_username <;> simp [hf, hu]

/-- C8 fails on the code: no operation in src/userteg.py ever inserts into or
updates the user_activity table (there is no recordActivity anywhere), so
processing any message leaves user_activity unchanged, and after one message
from the pair (7, 100) the table is still empty rather than holding a row
with message_count 1. -/
theorem C8_no_activity_write :
    (∀ (db : DB) (now : String) (m : RawMessage),
        (process_message db now m).user_activity = db.user_activity) ∧
    (process_message emptyDB "T1" (obsMessage 1 "alice" "hello")).user_activity = [] := by
  constructor
  · intro db now m
    simp only [process_message]
    split
    · rfl
    · simp only [store_message_data]
      exact store_user_data_user_activity db _ now
  · decide

/-! ## Claim C4: offset advancement before dispatch -/

/-- The offset parameter of the next getUpdates request (line 661):
last_update_id + 1, so updates with identifier at most last_update_id are
never requested again. -/
def nextRequestOffset (last_update_id : Int) : Int := last_update_id + 1

/-- The per-cycle dispatch loop of start_monitoring (lines 668-672): for each
update in the order received, first set last_update_id to the update
identifier, then dispatch any carried message. The dispatch argument
abstracts process_message together with the possibility that it raises
(none); a raised exception propagates, stopping the cycle with the failing
update reported and the already advanced offset kept. -/
def dispatchUpdates (dispatch : DB → RawMessage → Option DB) :
    Int × DB → List RawUpdate → (Int × DB) × Option RawUpdate
  | st, [] => (st, none)
  | st, u :: rest =>
    match u.message with
    | none => dispatchUpdates dispatch (u.update_id, st.2) rest
    | some m =>
      match dispatch st.2 m with
      | some db2 => dispatchUpdates dispatch (u.update_id, db2) rest
      | none => ((u.update_id, st.2), some u)

/-- C4: whenever dispatch fails at some update, the in-memory offset was
already advanced to that update identifier before the dispatch, so the next
request offset (last_update_id + 1) strictly exceeds it and the failed update
is never re-requested: at-most-once acknowledgment. -/
theorem C4_offset_before_dispatch (dispatch : DB → RawMessage → Option DB)
    (st : Int × DB) (updates : List RawUpdate) (u : RawUpdate)
    (h : (dispatchUpdates dispatch st updates).2 = some u) :
    (dispatchUpdates dispatch st updates).1.1 = u.update_id ∧
      u.update_id < nextRequestOffset (dispatchUpdates dispatch st updates).1.1 := by
  induction updates generalizing st with
  | nil => simp [dispatchUpdates] at h
  | cons u0 rest ih =>
    cases hm : u0.message with
    | none =>
      simp only [dispatchUpdates, hm] at h ⊢
      exact ih _ h
    | some m =>
      cases hd : dispatch st.2 m with
      | some db2 =>
        simp only [dispatchUpdates, hm, hd] at h ⊢
        exact ih _ h
      | none =>
        simp only [dispatchUpdates, hm, hd] at h ⊢
        obtain rfl : u0 = u := by simpa using h
        refine ⟨rfl, ?_⟩
        simp only [nextRequestOffset]
        omega

/-- A single update carrying a message, for the C4 witness. -/
def failingUpdate : RawUpdate :=
  { update_id := 5, message := some (obsMessage 1 "alice" "boom") }

/-- Witness for C4: with a dispatch that raises on every message, processing
the single update with identifier 5 fails after the offset reached 5, and the
next request offset 6 exceeds 5. -/
theorem C4_offset_before_dispatch_witness :
    (dispatchUpdates (fun _ _ => none) (0, emptyDB) [failingUpdate]).2 =
        some failingUpdate ∧
      ((dispatchUpdates (fun _ _ => none) (0, emptyDB) [failingUpdate]).1.1 =
          failingUpdate.update_id ∧
        failingUpdate.update_id <
          nextRequestOffset (dispatchUpdates (fun _ _ => none) (0, emptyDB) [failingUpdate]).1.1) :=
  ⟨rfl, C4_offset_before_dispatch (fun _ _ => none) (0, emptyDB) [failingUpdate] failingUpdate rfl⟩

/-! ## Claim C5: transport-level failures in the polling loop -/

/-- The three transport outcomes of one polling cycle (lines 659-664): a
parseable response envelope with its ok flag and result list, a network
error raised by session.get, or a body on which response.json raises. -/
inductive TransportEvent where
  | response (ok : Bool) (result : List RawUpdate)
  | netError
  | malformed
  deriving Repr

/-- One iteration of the while body of start_monitoring (lines 658-674).
The try block around the loop catches only KeyboardInterrupt, so a raised
requests or JSON exception propagates as an error; a parseable response with
ok false merely falls through to time.sleep and the next cycle, leaving the
offset and database untouched. -/
def pollCycle (dispatch : DB → RawMessage → Option DB) (st : Int × DB) :
    TransportEvent → Except String (Int × DB)
  | TransportEvent.netError =>
      Except.error "requests exception from session.get: not caught by the loop"
  | TransportEvent.malformed =>
      Except.error "exception from response.json: not caught by the loop"
  | TransportEvent.response ok result =>
      if ok then
        match dispatchUpdates dispatch st result with
        | (st2, none) => Except.ok st2
        | (_, some _) => Except.error "exception from process_message: not caught by the loop"
      else Except.ok st

/-- The while True loop of start_monitoring over a sequence of transport
outcomes: it keeps cycling until an uncaught exception terminates it. -/
def pollLoop (dispatch : DB → RawMessage → Option DB) :
    Int × DB → List TransportEvent → Except String (Int × DB)
  | st, [] => Except.ok st
  | st, ev :: evs =>
      match pollCycle dispatch st ev with
      | Except.ok st2 => pollLoop dispatch st2 evs
      | Except.error e => Except.error e

/-- The dispatch start_monitoring actually installs: process_message, which
in this model does not raise. -/
def realDispatch (now : String) : DB → RawMessage → Option DB :=
  fun db m => some (process_message db now m)

/-- C5 as stated is false: a single network error does not lead to a logged
retry - the exception is not caught (only KeyboardInterrupt is), so the
polling loop terminates at the concrete input below. -/
theorem C5_counterexample :
    pollLoop (realDispatch "T") (0, emptyDB) [TransportEvent.netError] =
      Except.error "requests exception from session.get: not caught by the loop" := rfl

/-- C5 amended: a well-formed non-success response (ok false) leaves offset
and database unchanged and the loop retries without terminating (and without
logging); but a network error or a malformed response body raises an
exception the loop does not catch, terminating monitoring. -/
theorem C5_amended :
    (∀ (dispatch : DB → RawMessage → Option DB) (st : Int × DB)
        (result : List RawUpdate),
        pollCycle dispatch st (TransportEvent.response false result) = Except.ok st) ∧
    (∀ (dispatch : DB → RawMessage → Option DB) (st : Int × DB)
        (result : List RawUpdate) (evs : List TransportEvent),
        pollLoop dispatch st (TransportEvent.response false result :: evs) =
          pollLoop dispatch st evs) ∧
    (∀ (dispatch : DB → RawMessage → Option DB) (st : Int × DB),
        ∃ e, pollCycle dispatch st TransportEvent.netError = Except.error e) ∧
    (∀ (dispatch : DB → RawMessage → Option DB) (st : Int × DB),
        ∃ e, pollCycle dispatch st TransportEvent.malformed = Except.error e) :=
  ⟨fun _ _ _ => rfl, fun _ _ _ _ => rfl, fun _ _ => ⟨_, rfl⟩, fun _ _ => ⟨_, rfl⟩⟩

/-! ## SQLite LIKE and the username search -/

/-- Lower-case an ASCII letter; SQLite LIKE is case-insensitive exactly on
the ASCII range. -/
def asciiLower (c : Char) : Char :=
  if 'A' ≤ c ∧ c ≤ 'Z' then Char.ofNat (c.toNat + 32) else c

/-- SQLite LIKE matching over character lists: the percent wildcard matches
any sequence (tried as every suffix of the subject), the underscore wildcard
matches exactly one character, and any other pattern character matches one
subject character up to ASCII case. -/
def likeMatch : List Char → List Char → Bool
  | [], s => s.isEmpty
  | p :: ps, s =>
    if p = '%' then s.tails.any (fun t => likeMatch ps t)
    else
      match s with
      | [] => false
      | c :: s2 =>
        if p = '_' then likeMatch ps s2
        else (asciiLower p == asciiLower c) && likeMatch ps s2

/-- A LIKE test against the query wrapped in percent signs, the parameter
built at lines 574-575; a NULL column value never satisfies LIKE. -/
def likeOpt (q : String) : Option String → Bool
  | none => false
  | some s => likeMatch ('%' :: (q.data ++ ['%'])) s.data

/-- The joined rows contributed by one user in the LEFT JOIN of users with
username_history on user_id (lines 570-574): one row per history entry of
the user, or a single row with a NULL right-hand side when the user has no
history. -/
def joinUser (db : DB) (u : UserRow) : List (UserRow × Option HistRow) :=
  match db.username_history.filter (fun h => h.user_id == u.user_id) with
  | [] => [(u, none)]
  | h :: hs => (h :: hs).map (fun h2 => (u, some h2))

/-- The full LEFT JOIN of users with username_history on user_id. -/
def joinRows (db : DB) : List (UserRow × Option HistRow) :=
  db.users.flatMap (joinUser db)

/-- A result row of search_usernames: user_id, first_name, current_username. -/
structure SearchRow where
  user_id : Int
  first_name : Option String
  current_username : Option String
  deriving DecidableEq, Repr

/-- DatabaseManager.search_usernames (lines 565-585): SELECT DISTINCT of the
projected joined rows whose current_username or joined history username
LIKE-matches the wrapped query. -/
def search_usernames (db : DB) (q : String) : List SearchRow :=
  (((joinRows db).filter (fun x =>
      likeOpt q x.1.current_username || likeOpt q (x.2.bind (fun h => h.username)))).map
    (fun x =>
      { user_id := x.1.user_id,
        first_name := x.1.first_name,
        current_username := x.1.current_username })).dedup

/-! ## Claim C9: the two textual DatabaseManager class definitions -/

/-- Insert into a list kept in descending string-key order; models
ORDER BY key DESC over the stored TEXT columns. -/
def insertDescBy {α : Type} (key : α → String) (a : α) : List α → List α
  | [] => [a]
  | x :: xs => if key x ≤ key a then a :: x :: xs else x :: insertDescBy key a xs

/-- Sort by a string key, descending. -/
def sortDescBy {α : Type} (key : α → String) (l : List α) : List α :=
  l.foldr (insertDescBy key) []

/-- A result row of get_user_messages (lines 601-612). -/
structure MessageOut where
  message_id : Int
  chat_id : Int
  username : Option String
  first_name : Option String
  text : String
  date : String
  media_type : Option String
  chat_title : Option String
  deriving DecidableEq, Repr

/-- A result row of get_username_history (line 629). -/
structure HistOut where
  username : Option String
  changed_at : String
  deriving DecidableEq, Repr

namespace DM1

/-- _init_database of the first class (lines 157-233): five
CREATE TABLE IF NOT EXISTS statements - a missing database file becomes the
empty state, an existing state is preserved. -/
def _init_database (existing : Option DB) : DB :=
  existing.getD emptyDB

/-- store_message_data of the first class (lines 235-251). -/
def store_message_data (db : DB) (row : MsgRow) : DB :=
  let kept := db.messages.filter
    (fun r => !(r.message_id == row.message_id && r.chat_id == row.chat_id))
  { db with messages := kept ++ [row] }

/-- search_usernames of the first class (lines 253-273). -/
def search_usernames (db : DB) (q : String) : List SearchRow :=
  (((joinRows db).filter (fun x =>
      likeOpt q x.1.current_username || likeOpt q (x.2.bind (fun h => h.username)))).map
    (fun x =>
      { user_id := x.1.user_id,
        first_name := x.1.first_name,
        current_username := x.1.current_username })).dedup

/-- get_user_messages of the first class (lines 275-303): the messages of a
user joined with the chat title, newest first by message_date, limited. -/
def get_user_messages (db : DB) (user_id : Int) (limit : Nat) : List MessageOut :=
  ((sortDescBy (fun m => m.message_date)
      (db.messages.filter (fun m => m.user_id == user_id))).take limit).map
    (fun m =>
      { message_id := m.message_id,
        chat_id := m.chat_id,
        username := m.username,
        first_name := m.first_name,
        text := m.message_text,
        date := m.message_date,
        media_type := m.media_type,
        chat_title := (db.chats.find? (fun c => c.chat_id == m.chat_id)).bind
          (fun c => c.title) })

/-- get_username_history of the first class (lines 305-319): the history
entries of a user, newest first by changed_at. -/
def get_username_history (db : DB) (user_id : Int) : List HistOut :=
  (sortDescBy (fun h => h.changed_at)
      (db.username_history.filter (fun h => h.user_id == user_id))).map
    (fun h => { username := h.username, changed_at := h.changed_at })

end DM1

namespace DM2

/-- _init_database of the second class (lines 469-545), textually identical
to the first. -/
def _init_database (existing : Option DB) : DB :=
  existing.getD emptyDB

/-- store_message_data of the second class (lines 547-563). -/
def store_message_data (db : DB) (row : MsgRow) : DB :=
  let kept := db.messages.filter
    (fun r => !(r.message_id == row.message_id && r.chat_id == row.chat_id))
  { db with messages := kept ++ [row] }

/-- search_usernames of the second class (lines 565-585). -/
def search_usernames (db : DB) (q : String) : List SearchRow :=
  (((joinRows db).filter (fun x =>
      likeOpt q x.1.current_username || likeOpt q (x.2.bind (fun h => h.username)))).map
    (fun x =>
      { user_id := x.1.user_id,
        first_name := x.1.first_name,
        current_username := x.1.current_username })).dedup

/-- get_user_messages of the second class (lines 587-615). -/
def get_user_messages (db : DB) (user_id : Int) (limit : Nat) : List MessageOut :=
  ((sortDescBy (fun m => m.message_date)
      (db.messages.filter (fun m => m.user_id == user_id))).take limit).map
    (fun m =>
      { message_id := m.message_id,
        chat_id := m.chat_id,
        username := m.username,
        first_name := m.first_name,
        text := m.message_text,
        date := m.message_date,
        media_type := m.media_type,
        chat_title := (db.chats.find? (fun c => c.chat_id == m.chat_id)).bind
          (fun c => c.title) })

/-- get_username_history as textually defined inside lines 462-631 of the
second class (lines 617-631). -/
def get_username_history (db : DB) (user_id : Int) : List HistOut :=
  (sortDescBy (fun h => h.changed_at)
      (db.username_history.filter (fun h => h.user_id == user_id))).map
    (fun h => { username := h.username, changed_at := h.changed_at })

/-- The redefinition at src/userteg.py line 636: the comment lines 633-635
start at column 0, but comments never close an indentation suite in Python,
so that def still belongs to the second DatabaseManager class and overrides
the definition from line 617. Its body returns
self.db_manager.get_username_history(user_id), and no DatabaseManager
instance ever has a db_manager attribute, so every call raises
AttributeError. -/
def get_username_history_effective (db : DB) (user_id : Int) :
    Except String (List HistOut) :=
  Except.error "AttributeError: DatabaseManager object has no attribute db_manager"

end DM2

/-- A database holding one username_history row for user 1. -/
def c9DB : DB :=
  { emptyDB with
      username_history := [{ user_id := 1, username := some "old", changed_at := "T1" }] }

/-- C9 as stated is false: it concludes that the effective second class
matches the first on get_username_history, but the effective method is the
line-636 override, which raises AttributeError where the first class returns
the stored entry for user 1 of the concrete database c9DB. -/
theorem C9_counterexample :
    DM2.get_username_history_effective c9DB 1 ≠
      Except.ok (DM1.get_username_history c9DB 1) :=
  fun h => Except.noConfusion h

/-- C9 amended: the five operations as textually defined in the two class
bodies (lines 150-319 and 462-631) are identical, hence behaviorally equal on
every input and database state; but the effective second class also carries
the line-636 override of get_username_history, which raises AttributeError on
every call, so the effective class agrees with the first on _init_database,
store_message_data, search_usernames and get_user_messages but not on
get_username_history. -/
theorem C9_amended :
    DM1._init_database = DM2._init_database ∧
    DM1.store_message_data = DM2.store_message_data ∧
    DM1.search_usernames = DM2.search_usernames ∧
    DM1.get_user_messages = DM2.get_user_messages ∧
    DM1.get_username_history = DM2.get_username_history ∧
    ∀ (db : DB) (user_id : Int),
      ∃ e, DM2.get_username_history_effective db user_id = Except.error e :=
  ⟨rfl, rfl, rfl, rfl, rfl, fun _ _ => ⟨_, rfl⟩⟩

/-! ## Claim C6: search over current and historical usernames -/

/-- The spec wording for C6: the query appears in the subject as a
case-insensitive substring, with the ASCII case folding SQLite LIKE applies. -/
def ciSubstring (q s : String) : Prop :=
  (q.data.map asciiLower) <:+: (s.data.map asciiLower)

instance (q s : String) : Decidable (ciSubstring q s) :=
  inferInstanceAs (Decidable ((q.data.map asciiLower) <:+: (s.data.map asciiLower)))

/-- The query is free of the two LIKE wildcards. -/
def noWildcard (q : String) : Prop := ∀ c ∈ q.data, c ≠ '%' ∧ c ≠ '_'

instance (q : String) : Decidable (noWildcard q) :=
  inferInstanceAs (Decidable (∀ c ∈ q.data, c ≠ '%' ∧ c ≠ '_'))

/-- A percent wildcard at the head of a LIKE test consumes an arbitrary
prefix: the rest of the test runs on every suffix. -/
theorem likeMatch_percent (ps : List Char) (s : List Char) :
    likeMatch ('%' :: ps) s = true ↔ ∃ t, t <:+ s ∧ likeMatch ps t = true := by
  simp [likeMatch, List.mem_tails]

/-- A wildcard-free test followed by a closing percent holds exactly when the
lowered test characters form a prefix of the lowered subject. -/
theorem likeMatch_literal (q : List Char) (hq : ∀ c ∈ q, c ≠ '%' ∧ c ≠ '_') :
    ∀ s : List Char,
      likeMatch (q ++ ['%']) s = true ↔ q.map asciiLower <+: s.map asciiLower := by
  induction q with
  | nil =>
    intro s
    refine iff_of_true ?_ (List.nil_prefix)
    have : likeMatch ([] ++ ['%']) s = likeMatch ['%'] s := rfl
    rw [this, likeMatch_percent]
    exact ⟨[], List.nil_suffix, rfl⟩
  | cons a q2 ih =>
    intro s
    obtain ⟨ha1, ha2⟩ := hq a (List.mem_cons_self a q2)
    have hq2 : ∀ c ∈ q2, c ≠ '%' ∧ c ≠ '_' := fun c hc => hq c (List.mem_cons_of_mem a hc)
    cases s with
    | nil =>
      simp [likeMatch, ha1]
    | cons c s2 =>
      have hstep : likeMatch ((a :: q2) ++ ['%']) (c :: s2)
          = ((asciiLower a == asciiLower c) && likeMatch (q2 ++ ['%']) s2) := by
        simp [likeMatch, ha1, ha2]
      rw [hstep]
      simp only [List.map_cons, List.cons_prefix_cons, Bool.and_eq_true, beq_iff_eq]
      exact and_congr_right (fun _ => ih hq2 s2)

/-- For a wildcard-free query, the LIKE test against the percent-wrapped
query is exactly case-insensitive substring containment. -/
theorem sqlLike_iff (q : String) (hq : noWildcard q) (s : String) :
    likeMatch ('%' :: (q.data ++ ['%'])) s.data = true ↔ ciSubstring q s := by
  rw [likeMatch_percent]
  constructor
  · rintro ⟨t, hts, hm⟩
    rw [likeMatch_literal q.data hq t] at hm
    exact List.infix_iff_prefix_suffix.mpr
      ⟨t.map asciiLower, hm, List.IsSuffix.map asciiLower hts⟩
  · intro hinf
    obtain ⟨t2, hpre, hsuf⟩ := List.infix_iff_prefix_suffix.mp hinf
    rw [List.suffix_iff_eq_drop] at hsuf
    refine ⟨s.data.drop ((s.data.map asciiLower).length - t2.length),
      List.drop_suffix _ _, ?_⟩
    rw [likeMatch_literal q.data hq, List.map_drop]
    rw [hsuf] at hpre
    exact hpre

/-- A LIKE test on an optional column holds exactly when the column is
non-NULL and the wildcard-free query is a case-insensitive substring. -/
theorem likeOpt_iff (q : String) (hq : noWildcard q) (o : Option String) :
    likeOpt q o = true ↔ ∃ s, o = some s ∧ ciSubstring q s := by
  cases o with
  | none => simp [likeOpt]
  | some s =>
    rw [show likeOpt q (some s) = likeMatch ('%' :: (q.data ++ ['%'])) s.data from rfl]
    rw [sqlLike_iff q hq s]
    constructor
    · exact fun h => ⟨s, rfl, h⟩
    · rintro ⟨s2, hs2, hci⟩
      cases hs2
      exact hci

theorem mem_joinUser (db : DB) (u : UserRow) (x : UserRow × Option HistRow) :
    x ∈ joinUser db u ↔
      (x = (u, none) ∧
          db.username_history.filter (fun h => h.user_id == u.user_id) = []) ∨
        ∃ h, x = (u, some h) ∧ h ∈ db.username_history ∧ h.user_id = u.user_id := by
  unfold joinUser
  cases hfl : db.username_history.filter (fun h => h.user_id == u.user_id) with
  | nil =>
    constructor
    · intro hx
      exact Or.inl ⟨by simpa using hx, rfl⟩
    · rintro (⟨rfl, _⟩ | ⟨h2, rfl, hmem, huid⟩)
      · simp
      · exfalso
        have hin : h2 ∈ db.username_history.filter (fun h => h.user_id == u.user_id) :=
          List.mem_filter.mpr ⟨hmem, by simpa using huid⟩
        rw [hfl] at hin
        exact List.not_mem_nil h2 hin
    | cons h hs =>
    constructor
    · intro hx
      rw [List.mem_map] at hx
      obtain ⟨h2, hh2, rfl⟩ := hx
      have hin : h2 ∈ db.username_history.filter (fun h => h.user_id == u.user_id) := by
        rw [hfl]
        exact hh2
      rw [List.mem_filter] at hin
      exact Or.inr ⟨h2, rfl, hin.1, by simpa using hin.2⟩
    · rintro (⟨rfl, habs⟩ | ⟨h2, rfl, hmem, huid⟩)
      · exact absurd habs (List.cons_ne_nil h hs)
      · rw [List.mem_map]
        refine ⟨h2, ?_, rfl⟩
        have hin : h2 ∈ db.username_history.filter (fun h => h.user_id == u.user_id) :=
          List.mem_filter.mpr ⟨hmem, by simpa using huid⟩
        rwa [hfl] at hin

/-- The WHERE clause of search_usernames is satisfiable among the joined rows
of a user exactly when the current username LIKE-matches or some history
entry of the user LIKE-matches. -/
theorem exists_passing_join_row (db : DB) (q : String) (u : UserRow) :
    (∃ x ∈ joinUser db u,
        (likeOpt q x.1.current_username
          || likeOpt q (x.2.bind (fun h => h.username))) = true) ↔
      (likeOpt q u.current_username = true ∨
        ∃ h ∈ db.username_history,
          h.user_id = u.user_id ∧ likeOpt q h.username = true) := by
  constructor
  · rintro ⟨x, hx, hp⟩
    rw [mem_joinUser] at hx
    rcases hx with ⟨rfl, hnil⟩ | ⟨h, rfl, hmem, huid⟩
    · exact Or.inl (by simpa [likeOpt] using hp)
    · rw [Bool.or_eq_true] at hp
      rcases hp with hc | hh
      · exact Or.inl hc
      · exact Or.inr ⟨h, hmem, huid, hh⟩
  · intro hmatch
    rcases hmatch with hc | ⟨h, hmem, huid, hh⟩
    · unfold joinUser
      cases hfl : db.username_history.filter (fun h => h.user_id == u.user_id) with
      | nil => exact ⟨(u, none), by simp, by simp [hc]⟩
      | cons h0 hs =>
        refine ⟨(u, some h0), ?_, by simp [hc]⟩
        rw [List.mem_map]
        exact ⟨h0, List.mem_cons_self h0 hs, rfl⟩
    · refine ⟨(u, some h), ?_, by simp [hh]⟩
      rw [mem_joinUser]
      exact Or.inr ⟨h, rfl, hmem, huid⟩

/-- Membership in the result of search_usernames, characterized by the LIKE
tests of the SQL query. -/
theorem mem_search_usernames (db : DB) (q : String) (row : SearchRow) :
    row ∈ search_usernames db q ↔
      ∃ u ∈ db.users,
        (likeOpt q u.current_username = true ∨
          ∃ h ∈ db.username_history,
            h.user_id = u.user_id ∧ likeOpt q h.username = true) ∧
        row = { user_id := u.user_id, first_name := u.first_name,
                current_username := u.current_username } := by
  unfold search_usernames joinRows
  rw [List.mem_dedup, List.mem_map]
  constructor
  · rintro ⟨x, hx, rfl⟩
    rw [List.mem_filter] at hx
    obtain ⟨hmem, hpred⟩ := hx
    rw [List.mem_flatMap] at hmem
    obtain ⟨u, hu, hxu⟩ := hmem
    have hx1 : x.1 = u := by
      rw [mem_joinUser] at hxu
      rcases hxu with ⟨rfl, _⟩ | ⟨h, rfl, _, _⟩ <;> rfl
    refine ⟨u, hu, (exists_passing_join_row db q u).mp ⟨x, hxu, hpred⟩, ?_⟩
    rw [hx1]
  · rintro ⟨u, hu, hmatch, rfl⟩
    obtain ⟨x, hxu, hpred⟩ := (exists_passing_join_row db q u).mpr hmatch
    have hx1 : x.1 = u := by
      rw [mem_joinUser] at hxu
      rcases hxu with ⟨rfl, _⟩ | ⟨h, rfl, _, _⟩ <;> rfl
    refine ⟨x, List.mem_filter.mpr ⟨List.mem_flatMap.mpr ⟨u, hu, hxu⟩, hpred⟩, ?_⟩
    rw [hx1]

/-- The spec predicate for C6: some current or historical username of the
user contains the query as a case-insensitive substring. -/
def specUserMatches (db : DB) (q : String) (u : UserRow) : Prop :=
  (∃ cu, u.current_username = some cu ∧ ciSubstring q cu) ∨
    ∃ h ∈ db.username_history, h.user_id = u.user_id ∧
      ∃ hu, h.username = some hu ∧ ciSubstring q hu

/-- The concrete user for the C6 counterexample: current username xyz. -/
def userXyz : UserRow :=
  { user_id := 1,
    first_name := some "Ann",
    last_name := none,
    current_username := some "xyz",
    is_bot := false,
    language_code := none,
    first_seen := "T0",
    last_seen := "T0" }

/-- A database holding only the user with current username xyz. -/
def c6DB : DB :=
  { emptyDB with users := [userXyz] }

/-- C6 as stated is false: with the query x underscore z, the SQL LIKE test
treats the underscore as a one-character wildcard, so the user with current
username xyz is returned even though the query is not a case-insensitive
substring of xyz (or of any stored username). -/
theorem C6_counterexample :
    ({ user_id := 1, first_name := some "Ann", current_username := some "xyz" } : SearchRow)
        ∈ search_usernames c6DB "x_z" ∧ ¬ ciSubstring "x_z" "xyz" := by
  constructor
  · decide
  · decide

/-- C6 amended: for every query free of the LIKE wildcards percent and
underscore, search_usernames returns exactly the distinct
(user_id, first_name, current_username) tuples of the users whose
current_username or some historical username contains the query as a
case-insensitive substring; in particular a user whose only match is
historical is returned with the current username displayed. -/
theorem C6_search_correctness (db : DB) (q : String) (hq : noWildcard q) :
    (search_usernames db q).Nodup ∧
    ∀ row : SearchRow, row ∈ search_usernames db q ↔
      ∃ u ∈ db.users, specUserMatches db q u ∧
        row = { user_id := u.user_id, first_name := u.first_name,
                current_username := u.current_username } := by
  constructor
  · unfold search_usernames
    exact List.nodup_dedup _
  · intro row
    rw [mem_search_usernames]
    constructor
    · rintro ⟨u, hu, hmatch, hrow⟩
      refine ⟨u, hu, ?_, hrow⟩
      rcases hmatch with hc | ⟨h, hmem, huid, hh⟩
      · exact Or.inl (by simpa using (likeOpt_iff q hq _).mp hc)
      · obtain ⟨hu2, hhu, hci⟩ := (likeOpt_iff q hq _).mp hh
        exact Or.inr ⟨h, hmem, huid, hu2, hhu, hci⟩
    · rintro ⟨u, hu, hmatch, hrow⟩
      refine ⟨u, hu, ?_, hrow⟩
      rcases hmatch with ⟨cu, hcu, hci⟩ | ⟨h, hmem, huid, hu2, hhu, hci⟩
      · exact Or.inl ((likeOpt_iff q hq _).mpr ⟨cu, hcu, hci⟩)
      · exact Or.inr ⟨h, hmem, huid, (likeOpt_iff q hq _).mpr ⟨hu2, hhu, hci⟩⟩

/-- A user whose matching name survives only in history, for the C6 witness. -/
def userRenamed : UserRow :=
  { user_id := 2,
    first_name := some "Bea",
    last_name := none,
    current_username := some "newname",
    is_bot := false,
    language_code := none,
    first_seen := "T0",
    last_seen := "T1" }

/-- A database where user 2 now appears as newname but once used OldAlias. -/
def c6WitnessDB : DB :=
  { emptyDB with
      users := [userRenamed],
      username_history := [{ user_id := 2, username := some "OldAlias", changed_at := "T1" }] }

/-- Witness for C6 amended: the wildcard-free query oldal matches user 2 only
through the historical username OldAlias (case-insensitively), and the user is
returned with the current username newname displayed. -/
theorem C6_search_correctness_witness :
    noWildcard "oldal" ∧
    ({ user_id := 2, first_name := some "Bea", current_username := some "newname" } : SearchRow)
      ∈ search_usernames c6WitnessDB "oldal" :=
  ⟨by decide,
    ((C6_search_correctness c6WitnessDB "oldal" (by decide)).2 _).mpr
      ⟨userRenamed, by decide,
        Or.inr ⟨{ user_id := 2, username := some "OldAlias", changed_at := "T1" },
          by decide, rfl, "OldAlias", rfl, by decide⟩,
        rfl⟩⟩
